import Mathlib

/-!
Verification of the core logic of the beeroll screen-recording application:
quality profile table, error classifier, audio router, capture-session hook
(timer, start failure handling, mute toggling) and the FFmpeg compression
pipeline.  Each component is shallowly embedded from its TypeScript source
(`src/app/utils/qualitySettings.ts`, `src/app/utils/errorHandling.ts`,
`src/app/utils/audioDevices.ts`, `src/app/hooks/useScreenRecording.ts`,
`src/app/utils/compressionEngine.ts`); external browser operations
(getDisplayMedia, getUserMedia, FFmpeg execution, Math.random, timers) are
modelled by explicit environment records that fix each operation's outcome,
so every run of the embedded code is a pure computation.
-/

namespace Beeroll

/-- Helper for `jsIncludes`: does `pat` occur as a contiguous run inside the
character list? -/
def jsIncludesAux (pat : List Char) : List Char → Bool
  | [] => pat.isPrefixOf []
  | c :: rest => pat.isPrefixOf (c :: rest) || jsIncludesAux pat rest

/-- JavaScript `String.prototype.includes(pat)`: substring containment. -/
def jsIncludes (s pat : String) : Bool :=
  jsIncludesAux pat.data s.data

/-! ## Quality settings (`src/app/utils/qualitySettings.ts`) -/

/-- The `QualityPreset` union type `'high' | 'balanced' | 'compressed'`
(from `types/recording.ts`). -/
inductive QualityPreset
  | high
  | balanced
  | compressed
deriving DecidableEq

/-- `QualityConfig` from `qualitySettings.ts`. -/
structure QualityConfig where
  videoBitsPerSecond : Nat
  audioBitsPerSecond : Nat
  frameRate : Nat
  width : Nat
  height : Nat
  description : String
deriving DecidableEq

/-- The `QUALITY_PRESETS` record from `qualitySettings.ts`, a total map on
the three preset names. -/
def QUALITY_PRESETS : QualityPreset → QualityConfig
  | .high =>
    { videoBitsPerSecond := 8000000
      audioBitsPerSecond := 192000
      frameRate := 60
      width := 1920
      height := 1080
      description := "High Quality - 1080p @ 60fps, ~8 Mbps" }
  | .balanced =>
    { videoBitsPerSecond := 4000000
      audioBitsPerSecond := 128000
      frameRate := 30
      width := 1280
      height := 720
      description := "Balanced - 720p @ 30fps, ~4 Mbps" }
  | .compressed =>
    { videoBitsPerSecond := 2000000
      audioBitsPerSecond := 96000
      frameRate := 24
      width := 854
      height := 480
      description := "Compressed - 480p @ 24fps, ~2 Mbps" }

/-- `getQualityConfig` from `qualitySettings.ts`: record lookup by preset name. -/
def getQualityConfig (preset : QualityPreset) : QualityConfig :=
  QUALITY_PRESETS preset

/-- A quality profile row exactly as the specification's table names its
columns (spec section 6, "Quality profile table (bit-exact)"). -/
structure SpecQualityProfile where
  videoBitrate : Nat
  audioBitrate : Nat
  frameRate : Nat
  width : Nat
  height : Nat
deriving DecidableEq

/-- The specification's quality profile table, written from the spec's own
words (section 6): high = 8,000,000 / 192,000 / 60 / 1920x1080, balanced =
4,000,000 / 128,000 / 30 / 1280x720, compressed = 2,000,000 / 96,000 / 24 /
854x480. -/
def specQualityTable : QualityPreset → SpecQualityProfile
  | .high => ⟨8000000, 192000, 60, 1920, 1080⟩
  | .balanced => ⟨4000000, 128000, 30, 1280, 720⟩
  | .compressed => ⟨2000000, 96000, 24, 854, 480⟩

/-! ## Error classifier (`src/app/utils/errorHandling.ts`) -/

/-- `RecordingErrorType` from `errorHandling.ts`: the closed error taxonomy. -/
inductive RecordingErrorType
  | PERMISSION_DENIED
  | NOT_SUPPORTED
  | NO_DEVICES
  | RECORDING_FAILED
  | STREAM_ENDED
  | COMPRESSION_FAILED
  | DOWNLOAD_FAILED
  | UNKNOWN
deriving DecidableEq

/-- `RecordingError` from `errorHandling.ts`.  The `timestamp`, `context`
and `originalError` metadata fields carry no classification information and
are elided; `type` is rendered as `errType` (`type` is reserved in Lean). -/
structure RecordingError where
  errType : RecordingErrorType
  message : String
  recoverable : Bool
  suggestion : Option String
deriving DecidableEq

/-- A raw JavaScript value reaching `RecordingErrorHandler.handleError`:
a `DOMException` (distinguished by its `name`), a generic `Error`, or any
other value (string, number, object...), rendered by its string form. -/
inductive RawError
  | domException (name : String) (message : String)
  | jsError (name : String) (message : String)
  | otherValue (stringForm : String)
deriving DecidableEq

/-- `RecordingErrorHandler.handleDOMException`: the `switch` on
`error.name`. -/
def handleDOMException (name message : String) : RecordingError :=
  if name = "NotAllowedError" then
    { errType := .PERMISSION_DENIED
      message := "Screen recording permission was denied by the user or browser"
      recoverable := true
      suggestion := some "Please allow screen sharing when prompted by your browser. You may need to refresh the page and try again." }
  else if name = "NotSupportedError" then
    { errType := .NOT_SUPPORTED
      message := "Screen recording is not supported in this browser or device"
      recoverable := false
      suggestion := some "Please use a modern browser like Chrome 80+, Firefox 75+, or Safari 14+. Mobile browsers may have limited support." }
  else if name = "NotFoundError" then
    { errType := .NO_DEVICES
      message := "No recording devices (display or audio) were found"
      recoverable := true
      suggestion := some "Please check that your display and audio devices are connected and working. Try refreshing the page or restarting your browser." }
  else if name = "AbortError" then
    { errType := .STREAM_ENDED
      message := "Recording was interrupted or stopped unexpectedly"
      recoverable := true
      suggestion := some "The recording was stopped by the system or user. You can start a new recording. Check that your system resources are sufficient." }
  else if name = "NotReadableError" then
    { errType := .RECORDING_FAILED
      message := "Failed to read from recording device"
      recoverable := true
      suggestion := some "The recording device may be in use by another application. Please close other recording software and try again." }
  else if name = "OverconstrainedError" then
    { errType := .RECORDING_FAILED
      message := "Recording constraints cannot be satisfied"
      recoverable := true
      suggestion := some "The requested recording quality may be too high for your device. Try using a lower quality setting." }
  else
    { errType := .RECORDING_FAILED
      message := "Recording failed due to browser error: " ++ message
      recoverable := true
      suggestion := some "Please try starting the recording again. If the problem persists, try refreshing the page or using a different browser." }

/-- `RecordingErrorHandler.handleGenericError`: substring tests on the
lowercased message. -/
def handleGenericError (message : String) : RecordingError :=
  let msg := message.toLower
  if jsIncludes msg "compression" || jsIncludes msg "ffmpeg" then
    { errType := .COMPRESSION_FAILED
      message := "Video compression failed during processing"
      recoverable := true
      suggestion := some "The recording will be saved without compression. You can try enabling compression later or use a different quality setting." }
  else if jsIncludes msg "download" || jsIncludes msg "blob" then
    { errType := .DOWNLOAD_FAILED
      message := "Failed to download the recording file"
      recoverable := true
      suggestion := some "Please check your browser download settings and try again. Ensure you have sufficient disk space available." }
  else if jsIncludes msg "permission" || jsIncludes msg "access" then
    { errType := .PERMISSION_DENIED
      message := "Access to recording devices was denied"
      recoverable := true
      suggestion := some "Please check your browser permissions and allow access to your screen and microphone when prompted." }
  else if jsIncludes msg "network" || jsIncludes msg "fetch" then
    { errType := .RECORDING_FAILED
      message := "Network error occurred during recording"
      recoverable := true
      suggestion := some "Please check your internet connection and try again. Some features may require an active connection." }
  else
    { errType := .RECORDING_FAILED
      -- `error.message || '...'`: an empty message string is falsy in JS.
      message := if message = "" then "Recording failed due to an unexpected error" else message
      recoverable := true
      suggestion := some "Please try starting the recording again. If the problem persists, check the browser console for more details." }

/-- `RecordingErrorHandler.handleError`: dispatch on the dynamic kind of the
raw value. -/
def handleError : RawError → RecordingError
  | .domException name message => handleDOMException name message
  | .jsError _ message => handleGenericError message
  | .otherValue _ =>
    { errType := .UNKNOWN
      message := "An unknown error occurred during recording"
      recoverable := false
      suggestion := some "Please try refreshing the page and starting again. If the problem persists, check your browser console for more details." }

/-! ## Media stream model (browser `MediaStream` / `MediaStreamTrack`)

A track records its `enabled` flag (toggled by mute) and whether `stop()`
has been called on it; a stream is a track list plus its `active` flag. -/

/-- A `MediaStreamTrack`. -/
structure MSTrack where
  id : Nat
  kind : String
  enabled : Bool
  stopped : Bool
deriving DecidableEq

/-- A `MediaStream`. -/
structure MediaStream where
  tracks : List MSTrack
  active : Bool
deriving DecidableEq

/-- `MediaStream.getVideoTracks()`. -/
def MediaStream.getVideoTracks (s : MediaStream) : List MSTrack :=
  s.tracks.filter (fun t => t.kind == "video")

/-- `MediaStream.getAudioTracks()`. -/
def MediaStream.getAudioTracks (s : MediaStream) : List MSTrack :=
  s.tracks.filter (fun t => t.kind == "audio")

/-! ## Audio router (`src/app/utils/audioDevices.ts`) -/

namespace AudioDevices

/-- Outcomes of the external browser operations `getMixedAudioStream`
performs: microphone acquisition, audio-graph construction, and the mixed
audio track the `MediaStreamAudioDestinationNode` produces. -/
structure MixEnv where
  micOk : Bool
  graphOk : Bool
  mixedTrack : Option MSTrack
deriving DecidableEq

/-- The body of the `try` block of `getMixedAudioStream` (lines 157-198 of
`audioDevices.ts`): each `throw` becomes an `Except.error`.  The
`microphoneDeviceId` argument only shapes the `getUserMedia` constraints,
whose outcome `env.micOk` fixes. -/
def mixAttempt (screenStream : MediaStream) (microphoneDeviceId : Option String)
    (env : MixEnv) : Except String MediaStream :=
  if !screenStream.active then
    .error "Invalid or inactive screen stream provided"
  else if !env.micOk then
    .error "getUserMedia failed"
  else if !env.graphOk then
    .error "audio mixing graph construction failed"
  else
    match screenStream.getVideoTracks.head? with
    | none => .error "No video track found in screen stream"
    | some videoTrack =>
      match env.mixedTrack with
      | none => .error "No audio track found in mixed stream"
      | some mixedAudioTrack =>
        -- new MediaStream([videoTrack, mixedAudioTrack])
        .ok ⟨[videoTrack, mixedAudioTrack], true⟩

/-- `getMixedAudioStream` from `audioDevices.ts`: the `catch` returns the
original screen stream, so the function is total and never throws. -/
def getMixedAudioStream (screenStream : MediaStream) (microphoneDeviceId : Option String)
    (env : MixEnv) : MediaStream :=
  match mixAttempt screenStream microphoneDeviceId env with
  | .ok combined => combined
  | .error _ => screenStream

end AudioDevices

/-! ## Capture session hook (`src/app/hooks/useScreenRecording.ts`) -/

namespace ScreenRecording

/-- `RecordingState` union `'inactive' | 'recording' | 'paused' | 'stopped'`. -/
inductive RecordingState
  | inactive
  | recording
  | paused
  | stopped
deriving DecidableEq

/-- The object form of `RecordingOptions.audio`:
`{ system: bool, microphone: bool, deviceId?: string }`. -/
structure AudioOptions where
  system : Bool
  microphone : Bool
  deviceId : Option String
deriving DecidableEq

/-- `RecordingOptions.audio` is either a plain boolean or an object. -/
inductive AudioSetting
  | flag (b : Bool)
  | object (o : AudioOptions)
deriving DecidableEq

/-- `RecordingOptions` as the hook consumes them: audio, video and an
optional quality preset name. -/
structure RecordingOptions where
  audio : AudioSetting
  video : Bool
  quality : Option QualityPreset
deriving DecidableEq

/-- The hook's state: the React state variables (`recordingState`,
`duration`, `error`, `isMuted`) and the refs (`streamRef`,
`mediaRecorderRef` as a presence flag, `chunksRef`, `startTimeRef`,
`timerRef` as an active flag).  `audioRouting` carries the session's audio
routing configuration (the `audioOptions` value `startRecording` derives
from its options, the spec's `CaptureSession.audioRouting`); nothing but
`startRecording` writes it. -/
structure HookState where
  recordingState : RecordingState
  duration : Nat
  error : Option RecordingError
  isMuted : Bool
  streamRef : Option MediaStream
  mediaRecorderPresent : Bool
  chunks : List Nat
  startTimeRef : Option Nat
  timerActive : Bool
  audioRouting : AudioOptions
deriving DecidableEq

/-- The hook's initial state (`useState` initializers and empty refs). -/
def initialHookState : HookState :=
  { recordingState := .inactive
    duration := 0
    error := none
    isMuted := false
    streamRef := none
    mediaRecorderPresent := false
    chunks := []
    startTimeRef := none
    timerActive := false
    audioRouting := ⟨false, false, none⟩ }

/-- `updateTimer` (lines 85-91): sets `duration` to `Date.now() -
startTimeRef.current` whenever a start time is recorded.  It reads the raw
wall clock; nothing subtracts time spent paused. -/
def updateTimer (now : Nat) (st : HookState) : HookState :=
  match st.startTimeRef with
  | some s => { st with duration := now - s }
  | none => st

/-- The asynchronous events driving the hook's timer bookkeeping, each
carrying the wall-clock time (ms) at which it fires: the `MediaRecorder`
`onstart`/`onstop` handlers, the 1-second interval tick, and the
`pauseRecording`/`resumeRecording` calls. -/
inductive HookEvent
  | recorderOnStart (t : Nat)
  | timerTick (t : Nat)
  | pauseEvent (t : Nat)
  | resumeEvent (t : Nat)
  | recorderOnStop (t : Nat)
deriving DecidableEq

/-- One step of the hook's event handling, translated clause by clause:
`onstart` (lines 180-190) records the start time, zeroes the duration and
starts the interval; a tick runs `updateTimer` while the interval is
installed; `pauseRecording` (lines 274-292) clears the interval from the
`recording` state; `resumeRecording` (lines 297-312) re-installs the
interval from the `paused` state without touching `startTimeRef` or
`duration`; `onstop` (lines 192-202) clears the interval. -/
def step (st : HookState) : HookEvent → HookState
  | .recorderOnStart t =>
    { st with recordingState := .recording
              startTimeRef := some t
              duration := 0
              timerActive := true }
  | .timerTick t =>
    if st.timerActive then updateTimer t st else st
  | .pauseEvent _ =>
    if st.recordingState = .recording then
      { st with recordingState := .paused, timerActive := false }
    else st
  | .resumeEvent _ =>
    if st.recordingState = .paused then
      { st with recordingState := .recording, timerActive := true }
    else st
  | .recorderOnStop _ =>
    { st with recordingState := .stopped, timerActive := false }

/-- Run a whole event trace. -/
def runTrace (st : HookState) (events : List HookEvent) : HookState :=
  events.foldl step st

/-- `toggleMute` (lines 336-348): when a stream is owned, assign the
current `isMuted` flag to the `enabled` flag of every audio track
(`track.enabled = isMuted`), then flip `isMuted`.  Without a stream it is a
no-op. -/
def toggleMute (st : HookState) : HookState :=
  match st.streamRef with
  | none => st
  | some stream =>
    { st with
        streamRef := some
          { stream with
              tracks := stream.tracks.map (fun tr =>
                if tr.kind == "audio" then { tr with enabled := st.isMuted } else tr) }
        isMuted := !st.isMuted }

/-- Outcomes of the external operations `startRecording` performs:
`getDisplayMedia` (which yields a stream or throws), the audio router's
environment, `MediaRecorder.isTypeSupported`, the `MediaRecorder`
constructor, and `mediaRecorder.start`. -/
structure StartEnv where
  displayMediaResult : Except RawError MediaStream
  mixEnv : AudioDevices.MixEnv
  isTypeSupported : String → Bool
  recorderCtorResult : Except RawError Unit
  recorderStartResult : Except RawError Unit

/-- The fixed container/codec preference list of `startRecording`
(lines 147-152). -/
def supportedTypes : List String :=
  ["video/webm;codecs=vp9", "video/webm;codecs=vp8", "video/webm", "video/mp4"]

/-- The mime-type selection loop (lines 154-159): the first supported entry
of the preference list, `none` when every probe fails. -/
def pickMimeType (isSup : String → Bool) : Option String :=
  supportedTypes.find? isSup

/-- The `catch` block of `startRecording` (lines 226-233): classify the
error, store it, and reset the recording state to `inactive`.  It stops no
track and leaves `streamRef` as it stands. -/
def startFail (st : HookState) (err : RawError) : HookState :=
  { st with error := some (handleError err), recordingState := .inactive }

/-- The JS truthiness of `options.audio` (an object is always truthy). -/
def audioTruthy : AudioSetting → Bool
  | .flag b => b
  | .object _ => true

/-- The `audioOptions` derivation (lines 118-120). -/
def deriveAudioOptions : AudioSetting → AudioOptions
  | .object o => o
  | .flag b => ⟨b, false, none⟩

/-- The stream as it stands after the acquisition steps (lines 123-140):
the display stream, run through the audio router when the options are an
object with `microphone` requested (`getMixedAudioStream` is total, so the
inner `catch` of lines 136-139 never fires); `none` when `getDisplayMedia`
itself failed. -/
def acquiredStream (options : RecordingOptions) (env : StartEnv) : Option MediaStream :=
  match env.displayMediaResult with
  | .error _ => none
  | .ok baseStream =>
    let audioOptions := deriveAudioOptions options.audio
    match options.audio with
    | .object _ =>
      if audioOptions.microphone then
        some (AudioDevices.getMixedAudioStream baseStream audioOptions.deviceId env.mixEnv)
      else some baseStream
    | .flag _ => some baseStream

/-- `startRecording` (lines 99-233), step by step; the returned boolean is
`true` when the body ran to completion (`mediaRecorder.start` issued
without a throw) and `false` when the `catch` block handled a failure.  On
success the recording state is still whatever it was — the transition to
`recording` happens later, in the asynchronous `onstart` handler
(`HookEvent.recorderOnStart`). -/
def startRecording (st : HookState) (options : RecordingOptions) (env : StartEnv) :
    HookState × Bool :=
  -- setError(null); setDuration(0)
  let st := { st with error := none, duration := 0 }
  -- validation (lines 110-112)
  if !options.video && !audioTruthy options.audio then
    (startFail st (.jsError "Error" "At least one of video or audio must be enabled"), false)
  else
    match env.displayMediaResult with
    | .error err => (startFail st err, false)
    | .ok baseStream =>
      let audioOptions := deriveAudioOptions options.audio
      -- lines 133-140: mix in the microphone when requested on object options
      let stream :=
        match options.audio with
        | .object _ =>
          if audioOptions.microphone then
            AudioDevices.getMixedAudioStream baseStream audioOptions.deviceId env.mixEnv
          else baseStream
        | .flag _ => baseStream
      -- streamRef.current = stream; chunksRef.current = [] (lines 142-143)
      let st := { st with streamRef := some stream
                          chunks := []
                          audioRouting := audioOptions }
      match pickMimeType env.isTypeSupported with
      | none =>
        (startFail st (.jsError "Error"
          "No supported video format found. Please use a modern browser."), false)
      | some _ =>
        match env.recorderCtorResult with
        | .error err => (startFail st err, false)
        | .ok _ =>
          let st := { st with mediaRecorderPresent := true }
          match env.recorderStartResult with
          | .error err => (startFail st err, false)
          | .ok _ => (st, true)

/-- A hook state owning a stream whose single audio track starts out
disabled while the mute flag is off: the per-track configuration on which
the double-toggle round trip fails. -/
def muteCexState : HookState :=
  { initialHookState with streamRef := some ⟨[⟨0, "audio", false, false⟩], true⟩ }

/-- A hook state in the default unmuted configuration: one audio track,
enabled, `isMuted = false`. -/
def muteWitnessState : HookState :=
  { initialHookState with streamRef := some ⟨[⟨0, "audio", true, false⟩], true⟩ }

/-- A display stream with one live video track and one live audio track,
as `getDisplayMedia` hands it out. -/
def startCexBase : MediaStream :=
  ⟨[⟨0, "video", true, false⟩, ⟨1, "audio", true, false⟩], true⟩

/-- Well-formed recording options: video plus system audio, balanced
quality. -/
def startCexOpts : RecordingOptions :=
  ⟨.object ⟨true, false, none⟩, true, some .balanced⟩

/-- An environment where screen capture succeeds but no container/codec of
the preference list is supported, so `startRecording` fails after the
stream was acquired. -/
def startCexEnv : StartEnv :=
  { displayMediaResult := .ok startCexBase
    mixEnv := ⟨true, true, none⟩
    isTypeSupported := fun _ => false
    recorderCtorResult := .ok ()
    recorderStartResult := .ok () }

end ScreenRecording

/-! ## Compression pipeline (`src/app/utils/compressionEngine.ts`) -/

namespace CompressionEngine

/-- A JS `Blob`: byte size, declared MIME type, and an abstract content
identifier (two blobs are the same artifact exactly when all three
coincide). -/
structure Blob where
  size : Nat
  mimeType : String
  content : Nat
deriving DecidableEq

/-- `CompressionSettings` from `types/recording.ts`: quality is one of the
three preset names, so the `presets[quality] || presets.balanced` fallback
of `getCompressionArgs` is never taken. -/
structure CompressionSettings where
  quality : QualityPreset
  format : String
deriving DecidableEq

/-- `CompressionProgress`: a progress percentage with a stage label, as
handed to the progress callback. -/
structure CompressionProgress where
  progress : Nat
  stage : String
deriving DecidableEq

/-- `CompressionResult`; `compressionRatio` is the JS float computation
`((originalSize - compressedSize) / originalSize) * 100`, modelled as a
rational. -/
structure CompressionResult where
  blob : Blob
  originalSize : Nat
  compressedSize : Nat
  compressionRatio : ℚ
  processingTime : Nat
deriving DecidableEq

/-- The engine's mutable fields: `ffmpeg !== null`, `isCompressing`,
`isInitialized`. -/
structure EngineState where
  hasFFmpeg : Bool
  isCompressing : Bool
  isInitialized : Bool
deriving DecidableEq

/-- A freshly constructed engine; also the state `cleanup()` leaves behind
(`ffmpeg = null`, both flags false). -/
def freshEngine : EngineState := ⟨false, false, false⟩

/-- Outcomes of the external operations a `compress()` call performs:
browser-compatibility probe, `ffmpeg.load()`, input-file write, the main
`ffmpeg.exec` (a timeout counts as failure), the basic-transcode retry
exec, output read-back + file cleanup, the produced output bytes, the
`Math.random()` samples (scaled to `[0, 65]`) drawn by the simulated
progress interval while the main exec and the retry exec run, and the two
`Date.now()` readings.  The dynamic message text of underlying exceptions
is abstracted to fixed placeholder strings. -/
structure CompressEnv where
  browserOk : Bool
  loadOk : Bool
  writeOk : Bool
  execOk : Bool
  basicExecOk : Bool
  readOk : Bool
  outputSize : Nat
  outputContent : Nat
  tickRandoms : List Nat
  retryTickRandoms : List Nat
  startTime : Nat
  endTime : Nat
deriving DecidableEq

/-- `getCompressionArgs` (lines 404-437): FFmpeg argument presets per
quality name. -/
def getCompressionArgs (settings : CompressionSettings) : List String :=
  match settings.quality with
  | .high =>
    ["-c:v", "libvpx", "-crf", "10", "-b:v", "2M",
     "-c:a", "libvorbis", "-b:a", "128k", "-deadline", "good"]
  | .balanced =>
    ["-c:v", "libvpx", "-crf", "20", "-b:v", "1M",
     "-c:a", "libvorbis", "-b:a", "96k", "-deadline", "good"]
  | .compressed =>
    ["-c:v", "libvpx", "-crf", "30", "-b:v", "500k",
     "-c:a", "libvorbis", "-b:a", "64k", "-deadline", "realtime"]

/-- `initializeFFmpeg` (lines 174-228): returns the thrown error (if any),
the engine state after the call, and the progress events emitted.  On any
failure `cleanup()` has run, zeroing the engine.  A failing `-version`
self-test only warns (lines 211-213), so it does not appear. -/
def initializeFFmpeg (st : EngineState) (env : CompressEnv) :
    Except String Unit × EngineState × List CompressionProgress :=
  if st.isInitialized then (.ok (), st, [])
  else
    let ev0 : List CompressionProgress := [⟨0, "Initializing FFmpeg..."⟩]
    if !env.browserOk then
      (.error "FFmpeg initialization failed: Browser does not support required features for FFmpeg.wasm. Please use a modern browser with WebAssembly support.",
       freshEngine, ev0)
    else
      -- this.ffmpeg = new FFmpeg(); await this.ffmpeg.load()
      if !env.loadOk then
        (.error "FFmpeg initialization failed: Failed to load FFmpeg core: load failure",
         freshEngine, ev0)
      else
        (.ok (), { st with hasFFmpeg := true, isInitialized := true },
         ev0 ++ [⟨10, "FFmpeg ready"⟩])

/-- The tail of `performCompression` after a successful exec (lines
355-388): emit 90, read the output file, delete the work files, emit 100,
and wrap the output bytes as a `video/webm` blob.  A read/delete failure
is wrapped by the outer catch of `performCompression` (lines 389-396). -/
def finalizeOutput (env : CompressEnv) (evs : List CompressionProgress) :
    Except String Blob × List CompressionProgress :=
  let evs1 := evs ++ [⟨90, "Finalizing compressed video..."⟩]
  if !env.readOk then
    (.error "Video compression failed: read failure", evs1)
  else
    (.ok ⟨env.outputSize, "video/webm", env.outputContent⟩,
     evs1 ++ [⟨100, "Compression complete!"⟩])

/-- `performCompression` (lines 237-397): strategy selection by substring
sniffing on the blob's MIME type, the simulated-progress interval, the
copy-mode retry, and the transcode-mode passthrough.  Returns the produced
blob or the thrown error message (the outer catch of lines 389-396 already
applied), plus the emitted progress events in order. -/
def performCompression (st : EngineState) (videoBlob : Blob)
    (settings : CompressionSettings) (env : CompressEnv) :
    Except String Blob × List CompressionProgress :=
  if !st.hasFFmpeg || !st.isInitialized then
    (.error "FFmpeg not initialized. Please ensure the compression engine is ready.", [])
  else
    let ev0 : List CompressionProgress := [⟨15, "Preparing video for compression..."⟩]
    let hasVP9 := jsIncludes videoBlob.mimeType "vp9"
    let hasOpus := jsIncludes videoBlob.mimeType "opus"
    if !env.writeOk then
      (.error "Video compression failed: Failed to write input file: write failure", ev0)
    else
      -- copy-mode for VP9/Opus input, transcode-mode otherwise (lines 275-289)
      let copyMode := hasVP9 && hasOpus
      let tickStage :=
        if copyMode then "Optimizing video structure..." else "Processing video..."
      let ev1 := ev0 ++
        [⟨25, if copyMode then "Optimizing video structure..."
              else "Starting video compression..."⟩] ++
        env.tickRandoms.map (fun r => (⟨min 90 (25 + r), tickStage⟩ : CompressionProgress))
      if env.execOk then
        finalizeOutput env ev1
      else if copyMode then
        -- copy mode failed: retry with basic transcoding (lines 322-341);
        -- the progress interval is still running during the retry
        let ev2 := ev1 ++
          env.retryTickRandoms.map (fun r => (⟨min 90 (25 + r), tickStage⟩ : CompressionProgress))
        if env.basicExecOk then
          finalizeOutput env ev2
        else
          (.error "Video compression failed: All compression methods failed: exec failure", ev2)
      else
        -- transcode mode failed: return the original video as-is (lines 343-352)
        (.ok videoBlob, ev1 ++ [⟨100, "Compression failed, using original video"⟩])

/-- `compress` (lines 65-109): the in-flight and invalid-blob guards run
before any state is touched; then `isCompressing` is set, FFmpeg is lazily
initialized, `performCompression` runs, and the `finally` clears
`isCompressing`.  The result is the settled value (`Except`), the engine
state after the call, and every progress event emitted to the callback
from job start to settlement. -/
def compress (st : EngineState) (videoBlob : Option Blob)
    (settings : CompressionSettings) (env : CompressEnv) :
    Except String CompressionResult × EngineState × List CompressionProgress :=
  if st.isCompressing then
    (.error "Compression already in progress. Please wait for the current operation to complete.",
     st, [])
  else
    match videoBlob with
    | none =>
      (.error "Invalid video blob provided. Blob must exist and have content.", st, [])
    | some blob =>
      if blob.size = 0 then
        (.error "Invalid video blob provided. Blob must exist and have content.", st, [])
      else
        let st1 : EngineState := { st with isCompressing := true }
        let originalSize := blob.size
        match initializeFFmpeg st1 env with
        | (.error e, stE, evInit) =>
          -- the catch wraps and rethrows; the finally clears isCompressing
          (.error ("Video compression failed: " ++ e),
           { stE with isCompressing := false }, evInit)
        | (.ok _, st2, evInit) =>
          match performCompression st2 blob settings env with
          | (.error e, evPerf) =>
            (.error ("Video compression failed: " ++ e),
             { st2 with isCompressing := false }, evInit ++ evPerf)
          | (.ok outBlob, evPerf) =>
            let compressedSize := outBlob.size
            (.ok
              { blob := outBlob
                originalSize := originalSize
                compressedSize := compressedSize
                compressionRatio :=
                  ((originalSize : ℚ) - (compressedSize : ℚ)) / (originalSize : ℚ) * 100
                processingTime := env.endTime - env.startTime },
             { st2 with isCompressing := false }, evInit ++ evPerf)

/-- Is a list of naturals non-decreasing from left to right? -/
def nonDecreasing : List Nat → Bool
  | [] => true
  | [_] => true
  | a :: b :: rest => decide (a ≤ b) && nonDecreasing (b :: rest)

/-- A well-formed artifact already tagged VP9/Opus, so that `compress`
picks the copy strategy first. -/
def copyCexBlob : Blob := ⟨500000, "video/webm;codecs=vp9,opus", 1⟩

/-- An environment where the engine initializes and the input writes, but
the main exec and the basic-transcode retry both fail: every encoding
strategy fails. -/
def copyCexEnv : CompressEnv :=
  { browserOk := true, loadOk := true, writeOk := true
    execOk := false, basicExecOk := false, readOk := true
    outputSize := 0, outputContent := 0
    tickRandoms := [], retryTickRandoms := []
    startTime := 0, endTime := 0 }

/-- A well-formed artifact without VP9/Opus tags: transcode strategy. -/
def transcodeBlob : Blob := ⟨500000, "video/mp4", 2⟩

/-- An environment whose two progress-interval samples make the simulated
progress drop from 90 back to 25. -/
def progressCexEnv : CompressEnv :=
  { copyCexEnv with tickRandoms := [65, 0] }

/-- An environment where everything succeeds and the exec produces a
100000-byte output. -/
def happyEnv : CompressEnv :=
  { copyCexEnv with
      execOk := true
      basicExecOk := true
      outputSize := 100000
      outputContent := 9 }

end CompressionEngine

end Beeroll

/-- C9: looking up the quality name "balanced" returns exactly videoBitrate
4000000, audioBitrate 128000, frameRate 30, width 1280, height 720, and the
whole quality profile table matches the specification's table bit-exactly
for the names high, balanced, and compressed. -/
theorem Beeroll.getQualityConfig_matches_spec :
    (Beeroll.getQualityConfig .balanced).videoBitsPerSecond = 4000000 ∧
    (Beeroll.getQualityConfig .balanced).audioBitsPerSecond = 128000 ∧
    (Beeroll.getQualityConfig .balanced).frameRate = 30 ∧
    (Beeroll.getQualityConfig .balanced).width = 1280 ∧
    (Beeroll.getQualityConfig .balanced).height = 720 ∧
    ∀ p : Beeroll.QualityPreset,
      (Beeroll.getQualityConfig p).videoBitsPerSecond = (Beeroll.specQualityTable p).videoBitrate ∧
      (Beeroll.getQualityConfig p).audioBitsPerSecond = (Beeroll.specQualityTable p).audioBitrate ∧
      (Beeroll.getQualityConfig p).frameRate = (Beeroll.specQualityTable p).frameRate ∧
      (Beeroll.getQualityConfig p).width = (Beeroll.specQualityTable p).width ∧
      (Beeroll.getQualityConfig p).height = (Beeroll.specQualityTable p).height := by
  refine ⟨rfl, rfl, rfl, rfl, rfl, ?_⟩
  intro p
  cases p <;> exact ⟨rfl, rfl, rfl, rfl, rfl⟩

/-- C7: the error classifier is total — for every raw input it produces a
`RecordingError` whose kind lies in the closed taxonomy — and every input
that is neither a `DOMException` nor a generic `Error` maps to the
`UNKNOWN` kind with `recoverable = false`. -/
theorem Beeroll.handleError_total :
    ∀ raw : Beeroll.RawError,
      ∃ e : Beeroll.RecordingError, Beeroll.handleError raw = e ∧
        (∀ s, raw = Beeroll.RawError.otherValue s →
          e.errType = Beeroll.RecordingErrorType.UNKNOWN ∧ e.recoverable = false) := by
  intro raw
  refine ⟨Beeroll.handleError raw, rfl, ?_⟩
  rintro s rfl
  exact ⟨rfl, rfl⟩

/-- Witness for C7: the classifier at the concrete non-Error value `"42"`
yields kind `UNKNOWN` and `recoverable = false`. -/
theorem Beeroll.handleError_total_witness :
    (Beeroll.handleError (Beeroll.RawError.otherValue "42")).errType
        = Beeroll.RecordingErrorType.UNKNOWN ∧
    (Beeroll.handleError (Beeroll.RawError.otherValue "42")).recoverable = false := by
  obtain ⟨e, he, hprop⟩ := Beeroll.handleError_total (Beeroll.RawError.otherValue "42")
  rw [he]
  exact hprop "42" rfl

/-- C5: the audio router's merge operation never throws — for every base
stream, optional microphone device id, and environment, when any step of
the mixing attempt fails it returns the original base stream unchanged, and
when the attempt succeeds it returns a stream consisting of the base
stream's first video track plus the single mixed audio track. -/
theorem Beeroll.AudioDevices.getMixedAudioStream_spec :
    ∀ (s : Beeroll.MediaStream) (d : Option String) (env : Beeroll.AudioDevices.MixEnv),
      (∀ e, Beeroll.AudioDevices.mixAttempt s d env = .error e →
        Beeroll.AudioDevices.getMixedAudioStream s d env = s) ∧
      (∀ m, Beeroll.AudioDevices.mixAttempt s d env = .ok m →
        Beeroll.AudioDevices.getMixedAudioStream s d env = m ∧
        ∃ vt mt, s.getVideoTracks.head? = some vt ∧ env.mixedTrack = some mt ∧
          m = ⟨[vt, mt], true⟩) := by
  intro s d env
  constructor
  · intro e he
    simp [Beeroll.AudioDevices.getMixedAudioStream, he]
  · intro m hm
    refine ⟨by simp [Beeroll.AudioDevices.getMixedAudioStream, hm], ?_⟩
    unfold Beeroll.AudioDevices.mixAttempt at hm
    split_ifs at hm
    rcases hv : s.getVideoTracks.head? with _ | vt <;> rw [hv] at hm
    · exact absurd hm (by simp)
    rcases hmt : env.mixedTrack with _ | mt <;> rw [hmt] at hm
    · exact absurd hm (by simp)
    simp only [Except.ok.injEq] at hm
    exact ⟨vt, mt, rfl, rfl, hm.symm⟩

/-- Witness for C5: on a concrete active base stream with one video track,
a microphone that acquires successfully and a mixing graph that produces an
audio track, the router returns exactly the video track plus the mixed
audio track; and on a concrete inactive base stream the router returns the
base stream unchanged. -/
theorem Beeroll.AudioDevices.getMixedAudioStream_spec_witness :
    Beeroll.AudioDevices.getMixedAudioStream
        ⟨[⟨0, "video", true, false⟩], true⟩ none ⟨true, true, some ⟨7, "audio", true, false⟩⟩
      = ⟨[⟨0, "video", true, false⟩, ⟨7, "audio", true, false⟩], true⟩ ∧
    Beeroll.AudioDevices.getMixedAudioStream
        ⟨[⟨0, "video", true, false⟩], false⟩ none ⟨true, true, some ⟨7, "audio", true, false⟩⟩
      = ⟨[⟨0, "video", true, false⟩], false⟩ := by
  constructor
  · exact ((Beeroll.AudioDevices.getMixedAudioStream_spec
      ⟨[⟨0, "video", true, false⟩], true⟩ none ⟨true, true, some ⟨7, "audio", true, false⟩⟩).2
      ⟨[⟨0, "video", true, false⟩, ⟨7, "audio", true, false⟩], true⟩ rfl).1
  · exact (Beeroll.AudioDevices.getMixedAudioStream_spec
      ⟨[⟨0, "video", true, false⟩], false⟩ none ⟨true, true, some ⟨7, "audio", true, false⟩⟩).1
      "Invalid or inactive screen stream provided" rfl

/-- Auxiliary: mapping a function that fixes every member of a list is the
identity on that list. -/
theorem Beeroll.list_map_eq_self_of_mem {α : Type} {l : List α} {f : α → α}
    (h : ∀ a ∈ l, f a = a) : l.map f = l := by
  induction l with
  | nil => rfl
  | cons a l ih =>
    simp only [List.map_cons, h a (List.mem_cons_self a l)]
    exact congrArg _ (ih fun b hb => h b (List.mem_cons_of_mem a hb))

/-- C2 (the code, evaluated at the spec's own scenario): start at t=0,
tick at 1000 and 2000, pause at t=2000, resume at t=5000, tick at 6000 and
7000 — the hook reports `duration = 7000`, the full wall-clock span
including the 3000 ms spent paused, where the spec requires ≈ 4000. -/
theorem Beeroll.ScreenRecording.timer_includes_paused_time :
    (Beeroll.ScreenRecording.runTrace Beeroll.ScreenRecording.initialHookState
      [.recorderOnStart 0, .timerTick 1000, .timerTick 2000, .pauseEvent 2000,
       .resumeEvent 5000, .timerTick 6000, .timerTick 7000]).duration = 7000 := by
  rfl

/-- C8 counterexample: with an owned stream whose audio track starts out
disabled (`enabled = false`) while `isMuted = false`, two successive
`toggleMute()` calls leave the track enabled — the original per-track
state is not restored. -/
theorem Beeroll.ScreenRecording.toggleMute_twice_cex :
    (Beeroll.ScreenRecording.toggleMute
        (Beeroll.ScreenRecording.toggleMute Beeroll.ScreenRecording.muteCexState)).streamRef
      ≠ Beeroll.ScreenRecording.muteCexState.streamRef := by
  decide

/-- C8 amended: `toggleMute` never alters the `audioRouting` configuration
(nor duration, error, or recording state); two successive calls restore
`isMuted`; after two calls every audio track's `enabled` flag equals the
negation of the initial mute flag — so the original per-track state is
restored exactly on states whose audio tracks all start out with
`enabled = !isMuted` (in particular the default unmuted all-enabled
state), not for arbitrary per-track configurations. -/
theorem Beeroll.ScreenRecording.toggleMute_twice_amended :
    ∀ st : Beeroll.ScreenRecording.HookState,
      (Beeroll.ScreenRecording.toggleMute st).audioRouting = st.audioRouting ∧
      (Beeroll.ScreenRecording.toggleMute st).recordingState = st.recordingState ∧
      (Beeroll.ScreenRecording.toggleMute
        (Beeroll.ScreenRecording.toggleMute st)).audioRouting = st.audioRouting ∧
      (Beeroll.ScreenRecording.toggleMute
        (Beeroll.ScreenRecording.toggleMute st)).isMuted = st.isMuted ∧
      (∀ stream, st.streamRef = some stream →
        (∀ tr ∈ stream.tracks, tr.kind == "audio" → tr.enabled = !st.isMuted) →
        Beeroll.ScreenRecording.toggleMute (Beeroll.ScreenRecording.toggleMute st) = st) := by
  intro st
  obtain ⟨rs, dur, err, m, sref, mrp, ch, stt, ta, ar⟩ := st
  cases sref with
  | none => exact ⟨rfl, rfl, rfl, rfl, fun stream h => by cases h⟩
  | some stream =>
    refine ⟨rfl, rfl, rfl, ?_, ?_⟩
    · simp [Beeroll.ScreenRecording.toggleMute]
    · rintro stream' h htr
      injection h with h2
      subst h2
      simp only [Beeroll.ScreenRecording.toggleMute, List.map_map, Bool.not_not]
      obtain ⟨tracks, sactive⟩ := stream
      simp only [Beeroll.ScreenRecording.HookState.mk.injEq, Option.some.injEq,
        Beeroll.MediaStream.mk.injEq, and_true, true_and]
      refine Beeroll.list_map_eq_self_of_mem ?_
      intro tr hmem
      by_cases hk : tr.kind == "audio"
      · have he := htr tr hmem hk
        cases tr
        simp_all
      · simp [Function.comp, hk]

/-- Witness for C8 amended: in the default unmuted state with one enabled
audio track, two `toggleMute()` calls restore the state exactly. -/
theorem Beeroll.ScreenRecording.toggleMute_twice_amended_witness :
    Beeroll.ScreenRecording.toggleMute
        (Beeroll.ScreenRecording.toggleMute Beeroll.ScreenRecording.muteWitnessState)
      = Beeroll.ScreenRecording.muteWitnessState := by
  exact (Beeroll.ScreenRecording.toggleMute_twice_amended
      Beeroll.ScreenRecording.muteWitnessState).2.2.2.2
    ⟨[⟨0, "audio", true, false⟩], true⟩ rfl (by decide)

/-- C3 counterexample: with well-formed options, a successful screen
capture handing out a live video+audio stream, and no supported
container/codec, `startRecording` fails (the catch path runs, the state
ends `inactive` with the error recorded) yet the acquired display stream
is still held with none of its tracks stopped — the partial stream is left
dangling, contradicting the claim that every partially acquired resource
has its tracks stopped before the error is surfaced. -/
theorem Beeroll.ScreenRecording.startRecording_dangling_cex :
    (Beeroll.ScreenRecording.startRecording Beeroll.ScreenRecording.initialHookState
        Beeroll.ScreenRecording.startCexOpts Beeroll.ScreenRecording.startCexEnv).2 = false ∧
    (Beeroll.ScreenRecording.startRecording Beeroll.ScreenRecording.initialHookState
        Beeroll.ScreenRecording.startCexOpts Beeroll.ScreenRecording.startCexEnv).1.streamRef
      = some Beeroll.ScreenRecording.startCexBase ∧
    Beeroll.ScreenRecording.startCexBase.tracks.all (fun tr => !tr.stopped) = true := by
  exact ⟨rfl, rfl, rfl⟩

/-- C3 amended: any failure during `startRecording` leaves the controller
`inactive` with the classified error recorded; however, no partially
acquired stream is released — `streamRef` either still holds its previous
value (failure before acquisition) or holds the acquired stream with its
tracks untouched (failure after acquisition). -/
theorem Beeroll.ScreenRecording.startRecording_failure_amended :
    ∀ (st : Beeroll.ScreenRecording.HookState)
      (options : Beeroll.ScreenRecording.RecordingOptions)
      (env : Beeroll.ScreenRecording.StartEnv),
      (Beeroll.ScreenRecording.startRecording st options env).2 = false →
        (Beeroll.ScreenRecording.startRecording st options env).1.recordingState
            = Beeroll.ScreenRecording.RecordingState.inactive ∧
        ((Beeroll.ScreenRecording.startRecording st options env).1.error).isSome = true ∧
        ((Beeroll.ScreenRecording.startRecording st options env).1.streamRef = st.streamRef ∨
          (Beeroll.ScreenRecording.startRecording st options env).1.streamRef
            = Beeroll.ScreenRecording.acquiredStream options env) := by
  intro st options env
  obtain ⟨aud, vid, qual⟩ := options
  simp only [Beeroll.ScreenRecording.startRecording, Beeroll.ScreenRecording.acquiredStream]
  cases hval : (!vid && !Beeroll.ScreenRecording.audioTruthy aud) with
  | true => intro _; exact ⟨rfl, rfl, Or.inl rfl⟩
  | false =>
    cases hd : env.displayMediaResult with
    | error err => intro _; exact ⟨rfl, rfl, Or.inl rfl⟩
    | ok baseStream =>
      cases ha : aud with
      | flag b =>
        cases hm : Beeroll.ScreenRecording.pickMimeType env.isTypeSupported with
        | none => intro _; exact ⟨rfl, rfl, Or.inr rfl⟩
        | some mt =>
          cases hc : env.recorderCtorResult with
          | error err => intro _; exact ⟨rfl, rfl, Or.inr rfl⟩
          | ok u =>
            cases hr : env.recorderStartResult with
            | error err => intro _; exact ⟨rfl, rfl, Or.inr rfl⟩
            | ok u2 => intro h; simp at h
      | object o =>
        obtain ⟨osys, omic, odev⟩ := o
        cases omic
        all_goals
          cases hm : Beeroll.ScreenRecording.pickMimeType env.isTypeSupported with
          | none => intro _; exact ⟨rfl, rfl, Or.inr rfl⟩
          | some mt =>
            cases hc : env.recorderCtorResult with
            | error err => intro _; exact ⟨rfl, rfl, Or.inr rfl⟩
            | ok u =>
              cases hr : env.recorderStartResult with
              | error err => intro _; exact ⟨rfl, rfl, Or.inr rfl⟩
              | ok u2 => intro h; simp at h

/-- Witness for C3 amended: at the concrete no-supported-format failure,
`startRecording` ends `inactive` with an error recorded, and `streamRef`
holds the acquired (unreleased) display stream. -/
theorem Beeroll.ScreenRecording.startRecording_failure_amended_witness :
    (Beeroll.ScreenRecording.startRecording Beeroll.ScreenRecording.initialHookState
        Beeroll.ScreenRecording.startCexOpts Beeroll.ScreenRecording.startCexEnv).1.recordingState
      = Beeroll.ScreenRecording.RecordingState.inactive ∧
    ((Beeroll.ScreenRecording.startRecording Beeroll.ScreenRecording.initialHookState
        Beeroll.ScreenRecording.startCexOpts
        Beeroll.ScreenRecording.startCexEnv).1.error).isSome = true := by
  have h := Beeroll.ScreenRecording.startRecording_failure_amended
    Beeroll.ScreenRecording.initialHookState Beeroll.ScreenRecording.startCexOpts
    Beeroll.ScreenRecording.startCexEnv rfl
  exact ⟨h.1, h.2.1⟩

/-- Auxiliary: the last element of a list extended by a singleton. -/
theorem Beeroll.getLast_append_singleton {α : Type} (l : List α) (a : α) :
    (l ++ [a]).getLast? = some a := by
  induction l with
  | nil => rfl
  | cons b l ih =>
    rw [List.cons_append, List.getLast?_cons, ih]
    cases l <;> simp

/-- C6: whenever a job is already in flight (`isCompressing = true`), any
further `compress()` call is rejected immediately with the
already-in-progress error, the engine state is returned unchanged (nothing
is queued, the running job's flags are untouched), and not a single
progress event is emitted — the running job's progress is unaffected. -/
theorem Beeroll.CompressionEngine.compress_rejects_inflight :
    ∀ (st : Beeroll.CompressionEngine.EngineState)
      (b : Option Beeroll.CompressionEngine.Blob)
      (settings : Beeroll.CompressionEngine.CompressionSettings)
      (env : Beeroll.CompressionEngine.CompressEnv),
      st.isCompressing = true →
      Beeroll.CompressionEngine.compress st b settings env =
        (.error "Compression already in progress. Please wait for the current operation to complete.",
         st, []) := by
  intro st b settings env h
  unfold Beeroll.CompressionEngine.compress
  rw [h]
  simp

/-- Witness for C6: on a concrete busy engine, `compress` with a valid
blob and an all-succeeding environment is rejected with the engine state
unchanged and no events. -/
theorem Beeroll.CompressionEngine.compress_rejects_inflight_witness :
    Beeroll.CompressionEngine.compress ⟨true, true, true⟩
        (some Beeroll.CompressionEngine.transcodeBlob) ⟨.balanced, "webm"⟩
        Beeroll.CompressionEngine.happyEnv =
      (.error "Compression already in progress. Please wait for the current operation to complete.",
       ⟨true, true, true⟩, []) := by
  exact Beeroll.CompressionEngine.compress_rejects_inflight ⟨true, true, true⟩
    (some Beeroll.CompressionEngine.transcodeBlob) ⟨.balanced, "webm"⟩
    Beeroll.CompressionEngine.happyEnv rfl

/-- C10: when no job is in flight, a null blob or a zero-size blob makes
`compress()` fail immediately with the invalid-blob error, before the
engine is initialized or the job marked in flight: the returned engine
state is exactly the input state and no progress event was emitted, so a
subsequent call with a well-formed blob is not blocked. -/
theorem Beeroll.CompressionEngine.compress_invalid_blob :
    ∀ (st : Beeroll.CompressionEngine.EngineState)
      (b : Option Beeroll.CompressionEngine.Blob)
      (settings : Beeroll.CompressionEngine.CompressionSettings)
      (env : Beeroll.CompressionEngine.CompressEnv),
      st.isCompressing = false →
      (b = none ∨ ∃ blob, b = some blob ∧ blob.size = 0) →
      Beeroll.CompressionEngine.compress st b settings env =
        (.error "Invalid video blob provided. Blob must exist and have content.", st, []) := by
  intro st b settings env h hb
  unfold Beeroll.CompressionEngine.compress
  rw [h]
  rcases hb with rfl | ⟨blob, rfl, hsize⟩
  · simp
  · simp [hsize]

/-- Witness for C10: on a fresh engine, both a null blob and a zero-size
blob are rejected with the invalid-blob error and the state unchanged; the
follow-up call with a well-formed blob on that same state settles
successfully. -/
theorem Beeroll.CompressionEngine.compress_invalid_blob_witness :
    Beeroll.CompressionEngine.compress Beeroll.CompressionEngine.freshEngine none
        ⟨.balanced, "webm"⟩ Beeroll.CompressionEngine.happyEnv =
      (.error "Invalid video blob provided. Blob must exist and have content.",
       Beeroll.CompressionEngine.freshEngine, []) ∧
    Beeroll.CompressionEngine.compress Beeroll.CompressionEngine.freshEngine
        (some ⟨0, "video/mp4", 3⟩) ⟨.balanced, "webm"⟩ Beeroll.CompressionEngine.happyEnv =
      (.error "Invalid video blob provided. Blob must exist and have content.",
       Beeroll.CompressionEngine.freshEngine, []) ∧
    ((Beeroll.CompressionEngine.compress Beeroll.CompressionEngine.freshEngine
        (some Beeroll.CompressionEngine.transcodeBlob) ⟨.balanced, "webm"⟩
        Beeroll.CompressionEngine.happyEnv).1).isOk = true := by
  refine ⟨?_, ?_, rfl⟩
  · exact Beeroll.CompressionEngine.compress_invalid_blob
      Beeroll.CompressionEngine.freshEngine none ⟨.balanced, "webm"⟩
      Beeroll.CompressionEngine.happyEnv rfl (Or.inl rfl)
  · exact Beeroll.CompressionEngine.compress_invalid_blob
      Beeroll.CompressionEngine.freshEngine (some ⟨0, "video/mp4", 3⟩) ⟨.balanced, "webm"⟩
      Beeroll.CompressionEngine.happyEnv rfl (Or.inr ⟨⟨0, "video/mp4", 3⟩, rfl, rfl⟩)

/-- C1 counterexample: for the well-formed 500000-byte artifact tagged
`video/webm;codecs=vp9,opus` the copy strategy is chosen first; when the
copy exec and the basic-transcode retry both fail, `compress` does NOT
resolve with a passthrough result — it rejects with an error, so the claim
"never raises when every encoding strategy fails, regardless of which
strategy was chosen first" is false. -/
theorem Beeroll.CompressionEngine.compress_copy_failure_raises_cex :
    Beeroll.CompressionEngine.copyCexBlob.size = 500000 ∧
    (Beeroll.CompressionEngine.compress Beeroll.CompressionEngine.freshEngine
        (some Beeroll.CompressionEngine.copyCexBlob) ⟨.balanced, "webm"⟩
        Beeroll.CompressionEngine.copyCexEnv).1 =
      .error "Video compression failed: Video compression failed: All compression methods failed: exec failure" := by
  exact ⟨rfl, rfl⟩

/-- Auxiliary: when the engine is ready, the input write succeeds, the
artifact is not tagged VP9+Opus (transcode strategy) and the exec fails,
`performCompression` settles successfully with the original blob and a
final forced-100 failure-but-recovered event. -/
theorem Beeroll.CompressionEngine.performCompression_transcode_failure
    (st : Beeroll.CompressionEngine.EngineState) (blob : Beeroll.CompressionEngine.Blob)
    (settings : Beeroll.CompressionEngine.CompressionSettings)
    (env : Beeroll.CompressionEngine.CompressEnv)
    (hF : st.hasFFmpeg = true) (hI : st.isInitialized = true)
    (hW : env.writeOk = true)
    (hC : (Beeroll.jsIncludes blob.mimeType "vp9" && Beeroll.jsIncludes blob.mimeType "opus")
            = false)
    (hE : env.execOk = false) :
    Beeroll.CompressionEngine.performCompression st blob settings env =
      (.ok blob,
       [⟨15, "Preparing video for compression..."⟩,
        ⟨25, "Starting video compression..."⟩] ++
       env.tickRandoms.map (fun r =>
         (⟨min 90 (25 + r), "Processing video..."⟩ :
           Beeroll.CompressionEngine.CompressionProgress)) ++
       [⟨100, "Compression failed, using original video"⟩]) := by
  unfold Beeroll.CompressionEngine.performCompression
  rw [hF, hI]
  simp only [Bool.not_true, Bool.or_self, Bool.false_eq_true, if_false, hW, hC, hE,
    Bool.not_false, if_true, Bool.and_self]
  simp

/-- C1 amended: `compress` resolves without raising, with a passthrough
result equal to the original artifact (equal blob and sizes, ratio 0) and
a final progress event forced to 100 with the failure-but-recovered stage
label, when the encoding exec fails — but only when the TRANSCODE strategy
was selected (the artifact is not tagged VP9+Opus) and engine
initialization and the input write succeeded; when the copy strategy is
chosen first and both it and the basic-transcode retry fail, or when
initialization fails, `compress` rejects instead (see the
counterexample). -/
theorem Beeroll.CompressionEngine.compress_total_failure_amended :
    ∀ (st : Beeroll.CompressionEngine.EngineState) (blob : Beeroll.CompressionEngine.Blob)
      (settings : Beeroll.CompressionEngine.CompressionSettings)
      (env : Beeroll.CompressionEngine.CompressEnv),
      st.isCompressing = false →
      blob.size ≠ 0 →
      ((st.isInitialized = true ∧ st.hasFFmpeg = true) ∨
        (st.isInitialized = false ∧ env.browserOk = true ∧ env.loadOk = true)) →
      env.writeOk = true →
      (Beeroll.jsIncludes blob.mimeType "vp9" && Beeroll.jsIncludes blob.mimeType "opus")
          = false →
      env.execOk = false →
      ∃ (r : Beeroll.CompressionEngine.CompressionResult)
        (st' : Beeroll.CompressionEngine.EngineState)
        (evs : List Beeroll.CompressionEngine.CompressionProgress),
        Beeroll.CompressionEngine.compress st (some blob) settings env = (.ok r, st', evs) ∧
        r.blob = blob ∧ r.originalSize = blob.size ∧ r.compressedSize = blob.size ∧
        r.compressionRatio = 0 ∧
        evs.getLast? = some ⟨100, "Compression failed, using original video"⟩ ∧
        st'.isCompressing = false := by
  intro st blob settings env h1 h2 h3 hW hC hE
  unfold Beeroll.CompressionEngine.compress
  rw [h1]
  simp only [Bool.false_eq_true, if_false, if_neg h2]
  rcases h3 with ⟨hI, hF⟩ | ⟨hI, hB, hL⟩
  · have hInit : Beeroll.CompressionEngine.initializeFFmpeg
        { st with isCompressing := true } env
        = (.ok (), { st with isCompressing := true }, []) := by
      unfold Beeroll.CompressionEngine.initializeFFmpeg
      simp [hI]
    rw [hInit]
    dsimp only
    rw [Beeroll.CompressionEngine.performCompression_transcode_failure
        { st with isCompressing := true } blob settings env hF hI hW hC hE]
    refine ⟨_, _, _, rfl, rfl, rfl, rfl, ?_, ?_, rfl⟩
    · simp
    · exact Beeroll.getLast_append_singleton _ _
  · have hInit : Beeroll.CompressionEngine.initializeFFmpeg
        { st with isCompressing := true } env
        = (.ok (), { st with isCompressing := true, hasFFmpeg := true, isInitialized := true },
           [⟨0, "Initializing FFmpeg..."⟩, ⟨10, "FFmpeg ready"⟩]) := by
      unfold Beeroll.CompressionEngine.initializeFFmpeg
      simp [hI, hB, hL]
    rw [hInit]
    dsimp only
    rw [Beeroll.CompressionEngine.performCompression_transcode_failure
        { st with isCompressing := true, hasFFmpeg := true, isInitialized := true }
        blob settings env rfl rfl hW hC hE]
    refine ⟨_, _, _, rfl, rfl, rfl, rfl, ?_, ?_, rfl⟩
    · simp
    · rw [← List.append_assoc]
      exact Beeroll.getLast_append_singleton _ _

/-- Witness for C1 amended: on a fresh engine, a 500000-byte `video/mp4`
artifact (transcode strategy) with a failing exec settles successfully
with the original artifact and a final forced-100 event. -/
theorem Beeroll.CompressionEngine.compress_total_failure_amended_witness :
    ∃ (r : Beeroll.CompressionEngine.CompressionResult)
      (st' : Beeroll.CompressionEngine.EngineState)
      (evs : List Beeroll.CompressionEngine.CompressionProgress),
      Beeroll.CompressionEngine.compress Beeroll.CompressionEngine.freshEngine
          (some Beeroll.CompressionEngine.transcodeBlob) ⟨.balanced, "webm"⟩
          Beeroll.CompressionEngine.copyCexEnv = (.ok r, st', evs) ∧
      r.blob = Beeroll.CompressionEngine.transcodeBlob ∧
      r.originalSize = Beeroll.CompressionEngine.transcodeBlob.size ∧
      r.compressedSize = Beeroll.CompressionEngine.transcodeBlob.size ∧
      r.compressionRatio = 0 ∧
      evs.getLast? = some ⟨100, "Compression failed, using original video"⟩ ∧
      st'.isCompressing = false := by
  exact Beeroll.CompressionEngine.compress_total_failure_amended
    Beeroll.CompressionEngine.freshEngine Beeroll.CompressionEngine.transcodeBlob
    ⟨.balanced, "webm"⟩ Beeroll.CompressionEngine.copyCexEnv
    rfl (by decide) (Or.inr ⟨rfl, rfl, rfl⟩) rfl (by decide) rfl

/-- Auxiliary: every simulated-progress interval event is bounded by 100
(`Math.min(90, 25 + random * 65)` never exceeds 90). -/
theorem Beeroll.CompressionEngine.ticks_progress_le (rs : List Nat) (stage : String) :
    (rs.map (fun r =>
        (⟨min 90 (25 + r), stage⟩ : Beeroll.CompressionEngine.CompressionProgress))).all
      (fun e => decide (e.progress ≤ 100)) = true := by
  induction rs with
  | nil => rfl
  | cons r rs ih =>
    simp only [List.map_cons, List.all_cons, ih, Bool.and_true]
    exact decide_eq_true (le_trans (Nat.min_le_left _ _) (by norm_num))

/-- Auxiliary: every progress event `initializeFFmpeg` emits is at most
100. -/
theorem Beeroll.CompressionEngine.initializeFFmpeg_progress_le
    (st : Beeroll.CompressionEngine.EngineState)
    (env : Beeroll.CompressionEngine.CompressEnv) :
    ((Beeroll.CompressionEngine.initializeFFmpeg st env).2.2).all
      (fun e => decide (e.progress ≤ 100)) = true := by
  unfold Beeroll.CompressionEngine.initializeFFmpeg
  cases hI : st.isInitialized <;> cases hB : env.browserOk <;> cases hL : env.loadOk <;> rfl

/-- Auxiliary: every progress event `performCompression` emits is at most
100, on every path (success, write failure, copy retry, passthrough). -/
theorem Beeroll.CompressionEngine.performCompression_progress_le
    (st : Beeroll.CompressionEngine.EngineState) (blob : Beeroll.CompressionEngine.Blob)
    (settings : Beeroll.CompressionEngine.CompressionSettings)
    (env : Beeroll.CompressionEngine.CompressEnv) :
    ((Beeroll.CompressionEngine.performCompression st blob settings env).2).all
      (fun e => decide (e.progress ≤ 100)) = true := by
  unfold Beeroll.CompressionEngine.performCompression
    Beeroll.CompressionEngine.finalizeOutput
  cases hG : (!st.hasFFmpeg || !st.isInitialized)
  · dsimp only
    cases hW : env.writeOk
    · rfl
    · cases hC : (Beeroll.jsIncludes blob.mimeType "vp9" &&
          Beeroll.jsIncludes blob.mimeType "opus") <;>
        cases hE : env.execOk <;>
        cases hBa : env.basicExecOk <;>
        cases hR : env.readOk <;>
        simp [List.all_append, Beeroll.CompressionEngine.ticks_progress_le]
  · rfl

/-- C4 amended: over every engine state, artifact, settings and
environment, each progress value emitted to the callback from job start to
settlement lies within 0 and 100 (progress is a natural number, so the
lower bound is immediate); the monotonicity half of the claim fails — the
simulated progress ticks are random and can decrease (see the
counterexample). -/
theorem Beeroll.CompressionEngine.compress_progress_amended :
    ∀ (st : Beeroll.CompressionEngine.EngineState)
      (b : Option Beeroll.CompressionEngine.Blob)
      (settings : Beeroll.CompressionEngine.CompressionSettings)
      (env : Beeroll.CompressionEngine.CompressEnv),
      ((Beeroll.CompressionEngine.compress st b settings env).2.2).all
        (fun e => decide (e.progress ≤ 100)) = true := by
  intro st b settings env
  unfold Beeroll.CompressionEngine.compress
  cases hBusy : st.isCompressing
  · cases b with
    | none => rfl
    | some blob =>
      by_cases hz : blob.size = 0
      · simp [hz]
      · simp only [Bool.false_eq_true, if_false, if_neg hz]
        rcases hInit : Beeroll.CompressionEngine.initializeFFmpeg
            { st with isCompressing := true } env with ⟨res, stE, evI⟩
        have hIle := Beeroll.CompressionEngine.initializeFFmpeg_progress_le
          { st with isCompressing := true } env
        rw [hInit] at hIle
        cases res with
        | error e => exact hIle
        | ok u =>
          dsimp only
          rcases hPerf : Beeroll.CompressionEngine.performCompression stE blob settings env
            with ⟨pres, evP⟩
          have hPle := Beeroll.CompressionEngine.performCompression_progress_le
            stE blob settings env
          rw [hPerf] at hPle
          cases pres with
          | error e =>
            show (evI ++ evP).all (fun e => decide (e.progress ≤ 100)) = true
            rw [List.all_append, hIle, hPle]
            rfl
          | ok outBlob =>
            show (evI ++ evP).all (fun e => decide (e.progress ≤ 100)) = true
            rw [List.all_append, hIle, hPle]
            rfl
  · rfl

/-- C4 counterexample: with interval randoms 65 then 0, the emitted
progress sequence of a single job is 0, 10, 15, 25, 90, 25, 100 — the
simulated tick drops from 90 back to 25, so the sequence is not
monotonically non-decreasing. -/
theorem Beeroll.CompressionEngine.compress_progress_not_monotone_cex :
    ((Beeroll.CompressionEngine.compress Beeroll.CompressionEngine.freshEngine
        (some Beeroll.CompressionEngine.transcodeBlob) ⟨.balanced, "webm"⟩
        Beeroll.CompressionEngine.progressCexEnv).2.2).map
      (fun e => e.progress) = [0, 10, 15, 25, 90, 25, 100] ∧
    Beeroll.CompressionEngine.nonDecreasing
      (((Beeroll.CompressionEngine.compress Beeroll.CompressionEngine.freshEngine
          (some Beeroll.CompressionEngine.transcodeBlob) ⟨.balanced, "webm"⟩
          Beeroll.CompressionEngine.progressCexEnv).2.2).map
        (fun e => e.progress)) = false := by
  exact ⟨rfl, rfl⟩
